import Mathlib

/-!
Verification of the grafana-feishu webhook relay.

The repository holds two variants of the relay in Go:
- `server.go`: grouped mode — one card per inbound notification, built from
  notification-level common fields;
- the second source file (per-alert mode) — one card per entry of `alerts`.

Both are embedded below as pure Lean functions.  Effectful collaborators
(the chat-completion service and the outbound HTTP POST) are passed in as
oracles, so a handler run is a deterministic function of the parsed
notification, the process configuration and the two oracles.
-/

namespace GrafanaFeishu

/-- Association-list lookup modelling Go map indexing `m[k]` with its
presence flag: `some v` when the key is present, `none` otherwise. -/
def lookupMap (m : List (String × String)) (k : String) : Option String :=
  (m.find? (fun p => p.1 == k)).map (fun p => p.2)

/-- `Alert` as declared in `server.go` (the `Values map[string]interface\x7b\x7d`
field is untyped and unused by the handler, so it is omitted). -/
structure Alert where
  status : String
  labels : List (String × String)
  annotations : List (String × String)
  startsAt : String
  endsAt : String
  generatorURL : String
  fingerprint : String
  silenceURL : String
  dashboardURL : String
  panelURL : String
  deriving DecidableEq

/-- `Notification` as declared in `server.go`. -/
structure Notification where
  receiver : String
  status : String
  orgId : Int
  alerts : List Alert
  groupLabels : List (String × String)
  commonLabels : List (String × String)
  commonAnnotations : List (String × String)
  externalURL : String
  version : String
  groupKey : String
  truncatedAlerts : Int
  title : String
  state : String
  message : String
  deriving DecidableEq

/-- `Alert` as declared in the per-alert variant: only status, annotations,
labels and startsAt are parsed there. -/
structure AlertP where
  status : String
  annotations : List (String × String)
  labels : List (String × String)
  startsAt : String
  deriving DecidableEq

/-- `Notification` as declared in the per-alert variant: only the `alerts`
field exists, every other field of the wire payload is dropped at parse. -/
structure NotificationP where
  alerts : List AlertP
  deriving DecidableEq

/-- Parsing the same wire payload with the per-alert variant's struct keeps
only the fields that struct declares. -/
def toAlertP (a : Alert) : AlertP :=
  ⟨a.status, a.annotations, a.labels, a.startsAt⟩

def toNotificationP (n : Notification) : NotificationP :=
  ⟨n.alerts.map toAlertP⟩

/-- Feishu card payload structures, as declared in both variants. -/
structure FeishuCardTextElement where
  tag : String
  content : String
  deriving DecidableEq

structure FeishuCardHeader where
  title : FeishuCardTextElement
  template : String
  deriving DecidableEq

structure FeishuCardDivElement where
  tag : String
  text : FeishuCardTextElement
  deriving DecidableEq

structure FeishuCardContent where
  header : FeishuCardHeader
  elements : List FeishuCardDivElement
  deriving DecidableEq

structure FeishuCard where
  msgType : String
  card : FeishuCardContent
  deriving DecidableEq

/-- Process configuration resolved once at startup. -/
structure Config where
  feishuWebhookBase : String
  defaultBotUUID : String
  openaiToken : String
  deriving DecidableEq

/-- Result of one chat-completion call: either a Go error (`err != nil`) or
the first choice's message content. -/
inductive AIResult where
  | failure (errMsg : String)
  | success (content : String)
  deriving DecidableEq

/-- Result of one outbound POST via `http.DefaultClient.Do`: either a
transport-level error (`err != nil`) or an HTTP response of any status with
its body. -/
inductive PostResult where
  | transportError (errMsg : String)
  | response (status : Nat) (body : String)
  deriving DecidableEq

/-- How the fiber handler terminates: returning a non-nil error, calling
`c.SendStatus`, or returning nil without setting a status. -/
inductive Outcome where
  | failed (errMsg : String)
  | sentStatus (code : Nat)
  | nilReturn
  deriving DecidableEq

/-- HTTP status the fiber framework answers with for each handler outcome:
an explicit SendStatus code is sent as-is, a nil return sends fiber's
default 200, a returned error invokes fiber's default error handler (500). -/
def responseStatus : Outcome → Nat
  | .failed _ => 500
  | .sentStatus code => code
  | .nilReturn => 200

/-- One attempted outbound card POST. -/
structure Delivery where
  url : String
  card : FeishuCard
  deriving DecidableEq

/-- Observable trace of one handler invocation: chat-completion user
messages issued, outbound POSTs attempted (in order), response bodies read
and logged, and the handler's termination. -/
structure HandlerRun where
  aiCalls : List String
  attempts : List Delivery
  loggedBodies : List String
  outcome : Outcome
  deriving DecidableEq

/-- Go `strings.Trim s cutset`: remove from both ends of `s` every leading
and trailing rune contained in `cutset`. -/
def goTrim (s : String) (cutset : String) : String :=
  String.mk (((s.toList.dropWhile (fun c => cutset.toList.contains c)).reverse.dropWhile
      (fun c => cutset.toList.contains c)).reverse)

/-- The two `strings.Trim` calls of `server.go` applied to the model
reply. -/
def stripFences (content : String) : String :=
  goTrim (goTrim content "```markdown\n") "```"

/-- `server.go` title derivation: `commonAnnotations["summary"]`, else the
notification-level `title`. -/
def groupedTitle (n : Notification) : String :=
  match lookupMap n.commonAnnotations "summary" with
  | some v => v
  | none => n.title

/-- `server.go` description derivation: `commonAnnotations["description"]`,
else the notification-level `message`. -/
def groupedDescription (n : Notification) : String :=
  match lookupMap n.commonAnnotations "description" with
  | some v => v
  | none => n.message

/-- Status color in both variants: green exactly for "resolved". -/
def colorFor (status : String) : String :=
  if status = "resolved" then "green" else "red"

/-- Per-alert title derivation: `annotations["summary"]`, else
`labels["alertname"]`, else the literal fallback. -/
def alertTitle (a : AlertP) : String :=
  match lookupMap a.annotations "summary" with
  | some v => v
  | none =>
    match lookupMap a.labels "alertname" with
    | some v => v
    | none => "[No Title]"

/-- Per-alert description derivation: `annotations["description"]`, else
the literal fallback. -/
def alertDescription (a : AlertP) : String :=
  match lookupMap a.annotations "description" with
  | some v => v
  | none => "[No description]"

/-- Enrichment step of `server.go`: skipped when no token is configured;
on error the description becomes a diagnostic string; on success the reply
content with fences stripped.  The second component records the user
messages sent to the chat-completion service. -/
def enrichGrouped (openaiToken : String) (ai : String → AIResult)
    (description : String) : String × List String :=
  if openaiToken ≠ "" then
    match ai description with
    | .failure e => ("OpenAI API call failed: " ++ e, [description])
    | .success content => (stripFences content, [description])
  else (description, [])

/-- Enrichment step of the per-alert variant: skipped when no token is
configured; the description is replaced only when `err == nil`, with no
fence stripping. -/
def enrichPerAlert (openaiToken : String) (ai : String → AIResult)
    (description : String) : String × List String :=
  if openaiToken ≠ "" then
    match ai description with
    | .failure _ => (description, [description])
    | .success content => (content, [description])
  else (description, [])

/-- fiber `c.Params("botUUID", defaultBotUUID)`: the optional path
parameter when non-empty, else the supplied default. -/
def resolveBotUUID (pathParam : String) (defaultBotUUID : String) : String :=
  if pathParam = "" then defaultBotUUID else pathParam

/-- Assemble the card exactly as both variants do. -/
def mkCard (title color description : String) : FeishuCard :=
  { msgType := "interactive"
    card := {
      header := { title := { tag := "plain_text", content := title }
                  template := color }
      elements := [ { tag := "div"
                      text := { tag := "lark_md", content := description } } ] } }

/-- Straight-line card construction of `server.go` (title, description,
enrichment, color, destination URL), paired with the chat-completion user
messages issued. -/
def groupedDelivery (cfg : Config) (pathParam : String) (ai : String → AIResult)
    (n : Notification) : Delivery × List String :=
  (⟨cfg.feishuWebhookBase ++ "/" ++ resolveBotUUID pathParam cfg.defaultBotUUID,
     mkCard (groupedTitle n) (colorFor n.status)
       (enrichGrouped cfg.openaiToken ai (groupedDescription n)).1⟩,
   (enrichGrouped cfg.openaiToken ai (groupedDescription n)).2)

/-- The grouped-mode POST handler of `server.go`, given the enrichment and
delivery oracles.  `json.Marshal` of the card struct cannot fail and is
modelled as total.  A transport error on the outbound POST is returned to
fiber; otherwise the body is read and logged and the handler sends 204. -/
def groupedHandler (cfg : Config) (pathParam : String) (n : Notification)
    (ai : String → AIResult) (post : String → FeishuCard → PostResult) :
    HandlerRun :=
  match post (groupedDelivery cfg pathParam ai n).1.url
      (groupedDelivery cfg pathParam ai n).1.card with
  | .transportError e =>
    ⟨(groupedDelivery cfg pathParam ai n).2,
     [(groupedDelivery cfg pathParam ai n).1], [], .failed e⟩
  | .response _ body =>
    ⟨(groupedDelivery cfg pathParam ai n).2,
     [(groupedDelivery cfg pathParam ai n).1], [body], .sentStatus 204⟩

/-- Straight-line card construction of the per-alert variant's loop body
for one alert. -/
def alertDelivery (cfg : Config) (pathParam : String) (ai : String → AIResult)
    (a : AlertP) : Delivery × List String :=
  (⟨cfg.feishuWebhookBase ++ "/" ++ resolveBotUUID pathParam cfg.defaultBotUUID,
     mkCard (alertTitle a) (colorFor a.status)
       (enrichPerAlert cfg.openaiToken ai (alertDescription a)).1⟩,
   (enrichPerAlert cfg.openaiToken ai (alertDescription a)).2)

/-- The per-alert variant's loop over `alerts`: each alert is enriched and
posted in order; a transport error aborts the loop and is returned to
fiber; after the last alert the handler sends 204. -/
def processAlerts (cfg : Config) (pathParam : String) (ai : String → AIResult)
    (post : String → FeishuCard → PostResult) : List AlertP → HandlerRun
  | [] => ⟨[], [], [], .sentStatus 204⟩
  | a :: rest =>
    match post (alertDelivery cfg pathParam ai a).1.url
        (alertDelivery cfg pathParam ai a).1.card with
    | .transportError e =>
      ⟨(alertDelivery cfg pathParam ai a).2,
       [(alertDelivery cfg pathParam ai a).1], [], .failed e⟩
    | .response _ body =>
      let r := processAlerts cfg pathParam ai post rest
      ⟨(alertDelivery cfg pathParam ai a).2 ++ r.aiCalls,
       (alertDelivery cfg pathParam ai a).1 :: r.attempts,
       body :: r.loggedBodies, r.outcome⟩

/-- The per-alert variant's POST handler: an empty `alerts` list returns
nil immediately (no status is set), otherwise the loop runs. -/
def perAlertHandler (cfg : Config) (pathParam : String) (n : NotificationP)
    (ai : String → AIResult) (post : String → FeishuCard → PostResult) :
    HandlerRun :=
  if n.alerts = [] then ⟨[], [], [], .nilReturn⟩
  else processAlerts cfg pathParam ai post n.alerts

/-! Startup extraction of the webhook base and default bot UUID from the
`FEISHU_WEBHOOK` value, via the Go regexp `^(.*)/?([-a-z0-9]\x7b36\x7d)?$`
and `FindStringSubmatch`.  Go regexp submatch semantics are leftmost-first
(the match a backtracking search would find first); `.` matches any rune
except newline, and without the `m` flag `^` and `$` anchor at the start
and end of the whole text.  The functions below implement exactly that
backtracking search for this one pattern. -/

/-- The character class `[-a-z0-9]`. -/
def uuidClassChar (c : Char) : Bool :=
  c = '-' || ('a' ≤ c && c ≤ 'z') || ('0' ≤ c && c ≤ '9')

/-- Match `([-a-z0-9]\x7b36\x7d)?$` against the remaining input,
preferring the group present (exactly 36 class characters, then end of
text) over the group absent (empty capture, end of text).  Returns the
second capture group on success. -/
def matchOptGroup2 (r : List Char) : Option String :=
  if r.length = 36 && r.all uuidClassChar then some (String.mk r)
  else if r.isEmpty then some ""
  else none

/-- Match `/?([-a-z0-9]\x7b36\x7d)?$` against the remaining input: the
optional slash is tried consumed first (greedy), then unconsumed. -/
def matchSlashGroup2 (rest : List Char) : Option String :=
  match rest with
  | '/' :: r2 => (matchOptGroup2 r2) <|> (matchOptGroup2 rest)
  | _ => matchOptGroup2 rest

/-- Backtracking loop for the greedy `(.*)`: `pRev` is the reversed
candidate for the first capture group, `rest` the remaining input.  The
longest candidate is tried first; on failure one character moves from the
group back to the rest. -/
def starBacktrack : List Char → List Char → Option (List Char × String)
  | pRev, rest =>
    match matchSlashGroup2 rest with
    | some g2 => some (pRev.reverse, g2)
    | none =>
      match pRev with
      | [] => none
      | c :: p2 => starBacktrack p2 (c :: rest)

/-- `re.FindStringSubmatch s` for `^(.*)/?([-a-z0-9]\x7b36\x7d)?$`,
returning the two capture groups.  The initial `(.*)` candidate is the
longest newline-free prefix (Go `.` does not match newline).  `none`
models the nil slice Go returns when the regexp does not match; the Go
startup code then panics indexing `matches[1]`. -/
def findStringSubmatch (s : String) : Option (String × String) :=
  let chars := s.toList
  let p := chars.takeWhile (fun c => c ≠ '\n')
  (starBacktrack p.reverse (chars.drop p.length)).map
    (fun pr => (String.mk pr.1, pr.2))

/-- The startup assignment `feishuWebhookBase = matches[1];
defaultBotUUID = matches[2]`, run only when `FEISHU_WEBHOOK` is
non-empty. -/
def extractWebhookConfig (configuredWebhook : String) :
    Option (String × String) :=
  findStringSubmatch configuredWebhook

/-! Concrete fixtures used by counterexamples and witnesses. -/

/-- A notification with every field empty, to be overridden per test. -/
def notifBase : Notification :=
  { receiver := "", status := "firing", orgId := 0, alerts := [],
    groupLabels := [], commonLabels := [], commonAnnotations := [],
    externalURL := "", version := "", groupKey := "", truncatedAlerts := 0,
    title := "", state := "", message := "" }

def alertBase : Alert :=
  { status := "firing", labels := [], annotations := [], startsAt := "",
    endsAt := "", generatorURL := "", fingerprint := "", silenceURL := "",
    dashboardURL := "", panelURL := "" }

/-- Configuration with no AI key. -/
def cfgNoAI : Config :=
  { feishuWebhookBase := "https://x/hook", defaultBotUUID := "abc",
    openaiToken := "" }

/-- Configuration with an AI key. -/
def cfgAI : Config :=
  { feishuWebhookBase := "https://x/hook", defaultBotUUID := "abc",
    openaiToken := "k" }

/-- Configuration with neither a default bot UUID nor an AI key. -/
def cfgEmptyBot : Config :=
  { feishuWebhookBase := "https://x/hook", defaultBotUUID := "",
    openaiToken := "" }

/-- Delivery oracle: every POST gets a 200 response with body "ok". -/
def postOK : String → FeishuCard → PostResult := fun _ _ => .response 200 "ok"

/-- Delivery oracle: every POST suffers a transport error. -/
def postFail : String → FeishuCard → PostResult :=
  fun _ _ => .transportError "connection refused"

/-- Enrichment oracle that always errors. -/
def aiErr : String → AIResult := fun _ => .failure "boom"

/-- Wire notification whose commonAnnotations carry summary "S" while its
single alert carries summary "T". -/
def notifW1 : Notification :=
  { notifBase with
    commonAnnotations := [("summary", "S")],
    alerts := [{ alertBase with annotations := [("summary", "T")] }] }

/-- Wire notification lacking every summary, with notification title "T"
and an alert labelled alertname "A". -/
def notifW3 : Notification :=
  { notifBase with
    title := "T",
    alerts := [{ alertBase with labels := [("alertname", "A")] }] }

/-- Per-alert-variant notification with no alerts. -/
def notifEmptyP : NotificationP := ⟨[]⟩

/-- A bare per-alert-variant alert. -/
def alertW : AlertP :=
  { status := "firing", annotations := [("description", "D")],
    labels := [], startsAt := "" }

/-- Per-alert-variant notification with one alert. -/
def notifOneP : NotificationP := ⟨[alertW]⟩

/-- Per-alert-variant alert with no summary and alertname "A". -/
def alertW3 : AlertP :=
  { status := "firing", annotations := [], labels := [("alertname", "A")],
    startsAt := "" }

/-! Helper lemmas about the handler runs. -/

/-- The grouped handler attempts exactly one POST, with the delivery built
by `groupedDelivery`, whatever the POST's result. -/
theorem grouped_attempts (cfg : Config) (path : String) (n : Notification)
    (ai : String → AIResult) (post : String → FeishuCard → PostResult) :
    (groupedHandler cfg path n ai post).attempts
      = [(groupedDelivery cfg path ai n).1] := by
  unfold groupedHandler
  rcases post (groupedDelivery cfg path ai n).1.url
      (groupedDelivery cfg path ai n).1.card with e | ⟨st, body⟩ <;> rfl

/-- The grouped handler's chat-completion calls are those of
`groupedDelivery`, whatever the POST's result. -/
theorem grouped_aiCalls (cfg : Config) (path : String) (n : Notification)
    (ai : String → AIResult) (post : String → FeishuCard → PostResult) :
    (groupedHandler cfg path n ai post).aiCalls
      = (groupedDelivery cfg path ai n).2 := by
  unfold groupedHandler
  rcases post (groupedDelivery cfg path ai n).1.url
      (groupedDelivery cfg path ai n).1.card with e | ⟨st, body⟩ <;> rfl

/-- The per-alert loop attempts the deliveries of a prefix of the alerts,
in order (the whole list when no POST transport-errors, a shorter prefix
when one aborts the loop). -/
theorem processAlerts_take (cfg : Config) (path : String)
    (ai : String → AIResult) (post : String → FeishuCard → PostResult) :
    ∀ alerts : List AlertP, ∃ k,
      (processAlerts cfg path ai post alerts).attempts
        = (alerts.take k).map (fun a => (alertDelivery cfg path ai a).1) := by
  intro alerts
  induction alerts with
  | nil => exact ⟨0, rfl⟩
  | cons a rest ih =>
    obtain ⟨k, hk⟩ := ih
    rcases hp : post (alertDelivery cfg path ai a).1.url
        (alertDelivery cfg path ai a).1.card with e | ⟨st, body⟩
    · exact ⟨1, by simp [processAlerts, hp]⟩
    · exact ⟨k + 1, by simp [processAlerts, hp, hk]⟩

/-- With no API key configured, the per-alert loop issues no
chat-completion calls. -/
theorem processAlerts_aiCalls_nil (cfg : Config) (path : String)
    (ai : String → AIResult) (post : String → FeishuCard → PostResult)
    (h : cfg.openaiToken = "") :
    ∀ alerts : List AlertP,
      (processAlerts cfg path ai post alerts).aiCalls = [] := by
  intro alerts
  induction alerts with
  | nil => rfl
  | cons a rest ih =>
    rcases hp : post (alertDelivery cfg path ai a).1.url
        (alertDelivery cfg path ai a).1.card with e | ⟨st, body⟩
    · simp only [processAlerts, hp]
      simp [alertDelivery, enrichPerAlert, h]
    · simp only [processAlerts, hp]
      simp [alertDelivery, enrichPerAlert, h, ih]

/-- When every POST yields an HTTP response (of any status), the per-alert
loop finishes by sending 204. -/
theorem processAlerts_response_204 (cfg : Config) (path : String)
    (ai : String → AIResult) (post : String → FeishuCard → PostResult)
    (h : ∀ u c, ∃ st body, post u c = .response st body) :
    ∀ alerts : List AlertP,
      (processAlerts cfg path ai post alerts).outcome = .sentStatus 204 := by
  intro alerts
  induction alerts with
  | nil => rfl
  | cons a rest ih =>
    obtain ⟨st, body, hp⟩ := h (alertDelivery cfg path ai a).1.url
      (alertDelivery cfg path ai a).1.card
    simp [processAlerts, hp, ih]

/-- When every POST suffers the transport error `e`, the per-alert loop on
a non-empty list returns that error. -/
theorem processAlerts_transport_failed (cfg : Config) (path : String)
    (ai : String → AIResult) (post : String → FeishuCard → PostResult)
    (e : String) (h : ∀ u c, post u c = .transportError e) :
    ∀ (a : AlertP) (rest : List AlertP),
      (processAlerts cfg path ai post (a :: rest)).outcome = .failed e := by
  intro a rest
  simp [processAlerts, h]

/-- `takeWhile` keeps the whole list when the predicate holds
everywhere. -/
theorem takeWhile_eq_self_of_all {p : Char → Bool} :
    ∀ l : List Char, (∀ c ∈ l, p c = true) → l.takeWhile p = l := by
  intro l h
  induction l with
  | nil => rfl
  | cons c t ih =>
    simp only [List.takeWhile_cons, h c (List.mem_cons_self c t), if_pos]
    exact congrArg (c :: ·) (ih (fun x hx => h x (List.mem_cons_of_mem c hx)))

/-- The per-alert loop on a single alert always records exactly that
alert's delivery attempt, whatever the POST's result. -/
theorem processAlerts_singleton_attempts (cfg : Config) (path : String)
    (ai : String → AIResult) (post : String → FeishuCard → PostResult)
    (a : AlertP) :
    (processAlerts cfg path ai post [a]).attempts
      = [(alertDelivery cfg path ai a).1] := by
  rcases hp : post (alertDelivery cfg path ai a).1.url
      (alertDelivery cfg path ai a).1.card with e | ⟨st, body⟩ <;>
    simp [processAlerts, hp]

/-! Claim theorems. -/

/-- C4: for every status string of the relevant entity, the card header
color template is "green" iff the status equals "resolved" and "red" for
every other value, including the empty string; the grouped card is
colored from the notification status, and each per-alert card from its
alert's status. -/
theorem C4_status_color (cfg : Config) (path : String) (ai : String → AIResult)
    (post : String → FeishuCard → PostResult) (s : String) (n : Notification)
    (np : NotificationP) :
    (colorFor s = "green" ↔ s = "resolved") ∧
    (colorFor s = "red" ↔ s ≠ "resolved") ∧
    (groupedHandler cfg path n ai post).attempts.map
        (fun d => d.card.card.header.template) = [colorFor n.status] ∧
    ∃ k, (perAlertHandler cfg path np ai post).attempts.map
        (fun d => d.card.card.header.template)
      = (np.alerts.take k).map (fun a => colorFor a.status) := by
  refine ⟨?_, ?_, ?_, ?_⟩
  · by_cases hs : s = "resolved" <;> simp [colorFor, hs]
  · by_cases hs : s = "resolved" <;> simp [colorFor, hs]
  · simp [grouped_attempts, groupedDelivery, mkCard]
  · by_cases he : np.alerts = []
    · exact ⟨0, by simp [perAlertHandler, he]⟩
    · obtain ⟨k, hk⟩ := processAlerts_take cfg path ai post np.alerts
      refine ⟨k, ?_⟩
      simp only [perAlertHandler, if_neg he, hk, List.map_map]
      rfl

/-- C6: the two `strings.Trim` calls of the grouped handler map the model
reply "```markdown\n### X\n```" to exactly "### X", with no leading or
trailing fence characters, and the grouped enrichment step yields that
description on such a reply. -/
theorem C6_fence_stripping (d : String) :
    stripFences "```markdown\n### X\n```" = "### X" ∧
    (enrichGrouped "k" (fun _ => .success "```markdown\n### X\n```") d).1
      = "### X" := by
  exact ⟨rfl, rfl⟩

/-- C1 counterexample: the wire notification notifW1 carries
commonAnnotations summary "S", yet the per-alert handler (whose parsed
Notification keeps only the alerts field) emits a card titled "T" from
the alert's own annotations, not "S". -/
theorem C1_counterexample :
    lookupMap notifW1.commonAnnotations "summary" = some "S" ∧
    (perAlertHandler cfgNoAI "" (toNotificationP notifW1) aiErr
        postOK).attempts.map (fun d => d.card.card.header.title.content)
      = ["T"] ∧
    "T" ≠ "S" := by
  exact ⟨rfl, rfl, by decide⟩

/-- C1 (amended): in the grouped handler the emitted card's title equals
commonAnnotations["summary"] whenever that key is present, regardless of
any other field; the per-alert handler parses only the alerts field, so
every card it emits is titled by alertTitle of some alert (per-alert
annotations and labels only) and commonAnnotations never influences it. -/
theorem C1_amended_title (cfg : Config) (path : String) (n : Notification)
    (ai : String → AIResult) (post : String → FeishuCard → PostResult)
    (v : String) (h : lookupMap n.commonAnnotations "summary" = some v) :
    (groupedHandler cfg path n ai post).attempts.map
        (fun d => d.card.card.header.title.content) = [v] ∧
    ∃ k, (perAlertHandler cfg path (toNotificationP n) ai post).attempts.map
        (fun d => d.card.card.header.title.content)
      = ((toNotificationP n).alerts.take k).map alertTitle := by
  constructor
  · simp [grouped_attempts, groupedDelivery, mkCard, groupedTitle, h]
  · by_cases he : (toNotificationP n).alerts = []
    · exact ⟨0, by simp [perAlertHandler, he]⟩
    · obtain ⟨k, hk⟩ :=
        processAlerts_take cfg path ai post (toNotificationP n).alerts
      refine ⟨k, ?_⟩
      simp only [perAlertHandler, if_neg he, hk, List.map_map]
      rfl

theorem C1_amended_title_witness :
    (groupedHandler cfgNoAI "" notifW1 aiErr postOK).attempts.map
        (fun d => d.card.card.header.title.content) = ["S"] :=
  (C1_amended_title cfgNoAI "" notifW1 aiErr postOK "S" rfl).1

/-- C2 counterexample: on a notification with zero alerts the per-alert
handler returns nil without ever calling SendStatus(204); the framework
then answers with its default status 200, not 204. -/
theorem C2_counterexample :
    (perAlertHandler cfgNoAI "" notifEmptyP aiErr postOK).outcome
      = .nilReturn ∧
    (perAlertHandler cfgNoAI "" notifEmptyP aiErr postOK).outcome
      ≠ .sentStatus 204 ∧
    responseStatus
      (perAlertHandler cfgNoAI "" notifEmptyP aiErr postOK).outcome = 200 := by
  exact ⟨rfl, by decide, rfl⟩

/-- C2 (amended): in per-alert mode a notification with zero alerts
yields zero outbound card deliveries and zero enrichment calls, and the
handler returns nil without setting a status, so the inbound request is
answered with the framework's default success status 200 (not 204). -/
theorem C2_amended_empty_alerts (cfg : Config) (path : String)
    (ai : String → AIResult) (post : String → FeishuCard → PostResult)
    (n : NotificationP) (h : n.alerts = []) :
    (perAlertHandler cfg path n ai post).attempts = [] ∧
    (perAlertHandler cfg path n ai post).aiCalls = [] ∧
    (perAlertHandler cfg path n ai post).outcome = .nilReturn ∧
    responseStatus (perAlertHandler cfg path n ai post).outcome = 200 := by
  simp [perAlertHandler, h, responseStatus]

theorem C2_amended_empty_alerts_witness :
    (perAlertHandler cfgNoAI "" notifEmptyP aiErr postOK).attempts = [] ∧
    (perAlertHandler cfgNoAI "" notifEmptyP aiErr postOK).aiCalls = [] ∧
    (perAlertHandler cfgNoAI "" notifEmptyP aiErr postOK).outcome
      = .nilReturn ∧
    responseStatus
      (perAlertHandler cfgNoAI "" notifEmptyP aiErr postOK).outcome = 200 :=
  C2_amended_empty_alerts cfgNoAI "" aiErr postOK notifEmptyP rfl

/-- C3 counterexample: notifW3 lacks a summary everywhere and its alert is
labelled alertname "A", yet the grouped handler titles the card with the
notification-level title "T" — labels["alertname"] is never consulted in
grouped mode. -/
theorem C3_counterexample :
    lookupMap notifW3.commonAnnotations "summary" = none ∧
    (∀ a ∈ notifW3.alerts, lookupMap a.annotations "summary" = none) ∧
    notifW3.alerts.map (fun a => lookupMap a.labels "alertname")
      = [some "A"] ∧
    (groupedHandler cfgNoAI "" notifW3 aiErr postOK).attempts.map
        (fun d => d.card.card.header.title.content) = ["T"] ∧
    "T" ≠ "A" := by
  exact ⟨rfl, by decide, rfl, rfl, by decide⟩

/-- C3 (amended): in per-alert mode an alert lacking
annotations["summary"] and carrying labels["alertname"] yields a card
titled by that label value; the grouped handler instead falls back from
commonAnnotations["summary"] directly to the notification-level title and
never consults labels["alertname"]. -/
theorem C3_amended_alertname_title (cfg : Config) (path : String)
    (ai : String → AIResult) (post : String → FeishuCard → PostResult)
    (a : AlertP) (v : String) (n : Notification)
    (h1 : lookupMap a.annotations "summary" = none)
    (h2 : lookupMap a.labels "alertname" = some v)
    (h3 : lookupMap n.commonAnnotations "summary" = none) :
    alertTitle a = v ∧
    (perAlertHandler cfg path ⟨[a]⟩ ai post).attempts.map
        (fun d => d.card.card.header.title.content) = [v] ∧
    (groupedHandler cfg path n ai post).attempts.map
        (fun d => d.card.card.header.title.content) = [n.title] := by
  have ht : alertTitle a = v := by simp [alertTitle, h1, h2]
  refine ⟨ht, ?_, ?_⟩
  · simp [perAlertHandler, processAlerts_singleton_attempts, alertDelivery,
      mkCard, ht]
  · simp [grouped_attempts, groupedDelivery, mkCard, groupedTitle, h3]

theorem C3_amended_alertname_title_witness :
    (perAlertHandler cfgNoAI "" ⟨[alertW3]⟩ aiErr postOK).attempts.map
        (fun d => d.card.card.header.title.content) = ["A"] :=
  (C3_amended_alertname_title cfgNoAI "" aiErr postOK alertW3 "A" notifBase
    rfl rfl rfl).2.1

/-- C5: with no AI API key configured (empty OPENAI_API_KEY), no
chat-completion call is made by either handler and the card body carries
the interpreter-derived description unchanged. -/
theorem C5_no_api_key (cfg : Config) (path : String) (ai : String → AIResult)
    (post : String → FeishuCard → PostResult) (n : Notification)
    (np : NotificationP) (a : AlertP) (h : cfg.openaiToken = "") :
    (groupedHandler cfg path n ai post).aiCalls = [] ∧
    (groupedHandler cfg path n ai post).attempts.map
        (fun d => d.card.card.elements.map (fun el => el.text.content))
      = [[groupedDescription n]] ∧
    (perAlertHandler cfg path np ai post).aiCalls = [] ∧
    (alertDelivery cfg path ai a).1.card.card.elements.map
        (fun el => el.text.content) = [alertDescription a] := by
  refine ⟨?_, ?_, ?_, ?_⟩
  · simp [grouped_aiCalls, groupedDelivery, enrichGrouped, h]
  · simp [grouped_attempts, groupedDelivery, mkCard, enrichGrouped, h]
  · by_cases he : np.alerts = []
    · simp [perAlertHandler, he]
    · simp [perAlertHandler, he,
        processAlerts_aiCalls_nil cfg path ai post h]
  · simp [alertDelivery, mkCard, enrichPerAlert, h]

theorem C5_no_api_key_witness :
    (groupedHandler cfgNoAI "" notifW1 aiErr postOK).aiCalls = [] :=
  (C5_no_api_key cfgNoAI "" aiErr postOK notifW1 notifOneP alertW rfl).1

/-- C7: when the enrichment call fails, processing continues and the card
is still sent: the grouped handler's card description becomes the literal
diagnostic string embedding the error detail (and a successful POST still
yields 204 — the enrichment error is not returned), while the per-alert
loop keeps the original description unchanged and still attempts the
delivery. -/
theorem C7_enrichment_failure (cfg : Config) (path : String)
    (ai : String → AIResult) (post : String → FeishuCard → PostResult)
    (n : Notification) (a : AlertP) (e e2 : String)
    (htok : cfg.openaiToken ≠ "")
    (hg : ai (groupedDescription n) = .failure e)
    (ha : ai (alertDescription a) = .failure e2) :
    (groupedHandler cfg path n ai post).attempts.map (fun d => d.card)
      = [mkCard (groupedTitle n) (colorFor n.status)
          ("OpenAI API call failed: " ++ e)] ∧
    (∀ st body,
        post (groupedDelivery cfg path ai n).1.url
            (groupedDelivery cfg path ai n).1.card = .response st body →
        (groupedHandler cfg path n ai post).outcome = .sentStatus 204) ∧
    (alertDelivery cfg path ai a).1.card
      = mkCard (alertTitle a) (colorFor a.status) (alertDescription a) ∧
    (processAlerts cfg path ai post [a]).attempts
      = [(alertDelivery cfg path ai a).1] := by
  refine ⟨?_, ?_, ?_, processAlerts_singleton_attempts cfg path ai post a⟩
  · simp [grouped_attempts, groupedDelivery, enrichGrouped, htok, hg]
  · intro st body hp
    unfold groupedHandler
    simp [hp]
  · simp [alertDelivery, enrichPerAlert, htok, ha]

theorem C7_enrichment_failure_witness :
    (groupedHandler cfgAI "" notifW1 aiErr postOK).attempts.map
        (fun d => d.card)
      = [mkCard (groupedTitle notifW1) (colorFor notifW1.status)
          ("OpenAI API call failed: " ++ "boom")] :=
  (C7_enrichment_failure cfgAI "" aiErr postOK notifW1 alertW "boom" "boom"
    (by decide) rfl rfl).1

/-- C8: every outbound destination URL is the configured base, "/", and
the bot identifier, the latter resolved as the request path parameter
when present and the static default otherwise; when both are empty the
URL is the base with a trailing empty segment and the POST is still
attempted with it, uncorrected. -/
theorem C8_destination_url (cfg : Config) (path : String)
    (ai : String → AIResult) (post : String → FeishuCard → PostResult)
    (n : Notification) (a : AlertP) :
    (groupedDelivery cfg path ai n).1.url
      = cfg.feishuWebhookBase ++ "/"
          ++ resolveBotUUID path cfg.defaultBotUUID ∧
    (alertDelivery cfg path ai a).1.url
      = cfg.feishuWebhookBase ++ "/"
          ++ resolveBotUUID path cfg.defaultBotUUID ∧
    resolveBotUUID path cfg.defaultBotUUID
      = (if path = "" then cfg.defaultBotUUID else path) ∧
    (path = "" → cfg.defaultBotUUID = "" →
      (groupedHandler cfg path n ai post).attempts.map (fun d => d.url)
        = [cfg.feishuWebhookBase ++ "/"]) := by
  refine ⟨rfl, rfl, rfl, ?_⟩
  intro h1 h2
  simp [grouped_attempts, groupedDelivery, resolveBotUUID, h1, h2]

theorem C8_destination_url_witness :
    (groupedHandler cfgEmptyBot "" notifBase aiErr postOK).attempts.map
        (fun d => d.url) = ["https://x/hook" ++ "/"] :=
  (C8_destination_url cfgEmptyBot "" aiErr postOK notifBase alertW).2.2.2
    rfl rfl

/-- C9: the inbound request fails exactly when an outbound POST suffers a
transport-level error; on an HTTP response of any status (2xx or not) the
body is read and logged and the handler reports success (204). -/
theorem C9_delivery_outcome (cfg : Config) (path : String)
    (ai : String → AIResult) (post : String → FeishuCard → PostResult)
    (n : Notification) (np : NotificationP) :
    (∀ e, (groupedHandler cfg path n ai post).outcome = .failed e ↔
        post (groupedDelivery cfg path ai n).1.url
            (groupedDelivery cfg path ai n).1.card = .transportError e) ∧
    (∀ st body,
        post (groupedDelivery cfg path ai n).1.url
            (groupedDelivery cfg path ai n).1.card = .response st body →
        (groupedHandler cfg path n ai post).outcome = .sentStatus 204 ∧
        (groupedHandler cfg path n ai post).loggedBodies = [body]) ∧
    ((∀ u c, ∃ st body, post u c = .response st body) → np.alerts ≠ [] →
        (perAlertHandler cfg path np ai post).outcome = .sentStatus 204) ∧
    (∀ e, (∀ u c, post u c = .transportError e) → np.alerts ≠ [] →
        (perAlertHandler cfg path np ai post).outcome = .failed e) := by
  refine ⟨?_, ?_, ?_, ?_⟩
  · intro e
    unfold groupedHandler
    rcases hp : post (groupedDelivery cfg path ai n).1.url
        (groupedDelivery cfg path ai n).1.card with e2 | ⟨st, body⟩ <;>
      simp [hp]
  · intro st body hp
    unfold groupedHandler
    simp [hp]
  · intro h hne
    rcases hal : np.alerts with _ | ⟨a, rest⟩
    · exact absurd hal hne
    · simp [perAlertHandler, hal,
        processAlerts_response_204 cfg path ai post h]
  · intro e h hne
    rcases hal : np.alerts with _ | ⟨a, rest⟩
    · exact absurd hal hne
    · simp [perAlertHandler, hal,
        processAlerts_transport_failed cfg path ai post e h]

theorem C9_delivery_outcome_witness :
    (perAlertHandler cfgNoAI "" notifOneP aiErr postFail).outcome
      = .failed "connection refused" :=
  (C9_delivery_outcome cfgNoAI "" aiErr postFail notifBase notifOneP).2.2.2
    "connection refused" (fun _ _ => rfl) (by decide)

/-- C10 counterexample: for the non-empty value "a\nb" the regexp does
not match at all (Go `.` does not match a newline) — FindStringSubmatch
returns the nil slice, modelled none, and the startup code panics
indexing it — so the whole string is not assigned to the webhook base and
no empty default bot UUID is assigned. -/
theorem C10_counterexample :
    extractWebhookConfig "a\nb" = none ∧
    extractWebhookConfig "a\nb" ≠ some ("a\nb", "") ∧
    "a\nb" ≠ "" := by
  exact ⟨rfl, by decide, by decide⟩

/-- C10 (amended): for every non-empty FEISHU_WEBHOOK value containing no
newline, the greedy first capture group consumes the whole input: the
extraction assigns the entire configured string (including any trailing
UUID segment) to the webhook base and the empty string to the default bot
UUID, so a UUID embedded in FEISHU_WEBHOOK is never split out.  (A value
containing a newline instead makes the regexp fail to match and the
startup indexing panic.) -/
theorem C10_amended_greedy (s : String) (hne : s ≠ "")
    (hnl : ∀ c ∈ s.toList, c ≠ '\n') :
    extractWebhookConfig s = some (s, "") := by
  have htw : List.takeWhile (fun c => decide (c ≠ '\n')) s.toList
      = s.toList :=
    takeWhile_eq_self_of_all s.toList
      (fun c hc => decide_eq_true (hnl c hc))
  have hsb : ∀ pRev : List Char,
      starBacktrack pRev ([] : List Char) = some (pRev.reverse, "") := by
    intro pRev
    cases pRev with
    | nil => rfl
    | cons c p2 => rfl
  simp only [extractWebhookConfig, findStringSubmatch]
  rw [htw, List.drop_length, hsb]
  simp [List.reverse_reverse]

theorem C10_amended_greedy_witness :
    extractWebhookConfig "https://x/hook/abc" = some ("https://x/hook/abc", "") :=
  C10_amended_greedy "https://x/hook/abc" (by decide) (by decide)

end GrafanaFeishu
